import Mathlib

/-!
Shallow embedding of `powdeviceinfo.cfgmgr` (file `src/powdeviceinfo/cfgmgr/__init__.py`).

The Windows device configuration service (the `CM_*` foreign functions) is modelled as
explicit pure response data passed into each operation: for every service primitive the
model records the returned status code and the contents the call wrote into the
caller-supplied out-parameters and buffers.  Python exceptions become `Except` results.
Strings are modelled as lists of UTF-16 code units; raw property buffers as lists of bytes.
-/

set_option autoImplicit false

/-- Modelled from the spec: `CR_SUCCESS` from the `crresult` module (not under `src/`);
the disposition classified as Success.  The standard CfgMgr32 value is 0. -/
def CR_SUCCESS : Nat := 0

/-- Modelled from the spec: `CR_BUFFER_SMALL` from the `crresult` module (not under `src/`);
the disposition classified as BufferTooSmall.  The standard CfgMgr32 value is 26. -/
def CR_BUFFER_SMALL : Nat := 26

/-- Modelled from the spec: `CR_NO_SUCH_VALUE` from the `crresult` module (not under `src/`);
the disposition classified as NoMoreItems.  The standard CfgMgr32 value is 37. -/
def CR_NO_SUCH_VALUE : Nat := 37

/-- The Python exceptions the module can raise: `CMError(cr)` carrying the raw status code
(the spec's DeviceConfigError), and the builtin `OverflowError` raised when an enumeration
loop exhausts its 32-bit index range. -/
inductive PyErr where
  | CMError (cr : Nat)
  | OverflowError
deriving DecidableEq

/-- A GUID, opaque to the module beyond equality and copying; modelled as an opaque value. -/
abbrev Guid := Nat

/-- `DEVPROPKEY`: a (format identifier, property index) pair with structural equality. -/
structure DevicePropertyKey where
  fmtid : Nat
  pid : Nat
deriving DecidableEq

/-- `DeviceProperty(key, type, buffer)`: the property type tag is a raw `c_int32` value,
`bytes` the raw byte buffer contents. -/
structure DeviceProperty where
  key : DevicePropertyKey
  ptype : Int
  bytes : List Nat
deriving DecidableEq

/-- Response of a property sizing call (buffer argument `None`): the status code and the
values the service wrote into the `type` and `bufsize` out-parameters. -/
structure PropSizing where
  cr : Nat
  ptype : Int
  size : Nat

/-- Response of a property fetch call with an allocated buffer: the status code, the value
written into the `type` out-parameter, and the buffer contents after the call. -/
structure PropFetch where
  cr : Nat
  ptype : Int
  buf : List Nat

/-- Model of the property primitive (`CM_Get_Class_PropertyW` or `CM_Get_DevNode_PropertyW`)
as applied to one fixed (object, key, flags) triple: the sizing response, and the fetch
response for each possible allocated buffer size. -/
structure PropSvc where
  sizing : PropSizing
  fetch : Nat → PropFetch

/-- `CMClass.get_prop`: size with a null buffer, demand `CR_BUFFER_SMALL`, allocate exactly
the reported size, fetch, demand `CR_SUCCESS`; the returned property carries the type tag
written by the second call. -/
def CMClass.get_prop (svc : PropSvc) (key : DevicePropertyKey) : Except PyErr DeviceProperty :=
  let s := svc.sizing
  if s.cr ≠ CR_BUFFER_SMALL then .error (.CMError s.cr)
  else
    let f := svc.fetch s.size
    if f.cr ≠ CR_SUCCESS then .error (.CMError f.cr)
    else .ok ⟨key, f.ptype, f.buf⟩

/-- `CMDevice.get_prop`: same two-phase protocol over `CM_Get_DevNode_PropertyW`. -/
def CMDevice.get_prop (svc : PropSvc) (key : DevicePropertyKey) : Except PyErr DeviceProperty :=
  let s := svc.sizing
  if s.cr ≠ CR_BUFFER_SMALL then .error (.CMError s.cr)
  else
    let f := svc.fetch s.size
    if f.cr ≠ CR_SUCCESS then .error (.CMError f.cr)
    else .ok ⟨key, f.ptype, f.buf⟩

/-- `CMClass.get_prop_or_none`: the lenient variant — any unexpected disposition in either
phase yields `none` instead of raising. -/
def CMClass.get_prop_or_none (svc : PropSvc) (key : DevicePropertyKey) :
    Option DeviceProperty :=
  let s := svc.sizing
  if s.cr ≠ CR_BUFFER_SMALL then none
  else
    let f := svc.fetch s.size
    if f.cr ≠ CR_SUCCESS then none
    else some ⟨key, f.ptype, f.buf⟩

/-- Response of a property-key-list sizing call (`keys = None`): status and the count
written into the out-parameter. -/
structure KeysSizing where
  cr : Nat
  count : Nat

/-- Response of a property-key-list fetch call into an allocated key array: status and the
array contents after the call. -/
structure KeysFetch where
  cr : Nat
  keys : List DevicePropertyKey

/-- Model of the key-list primitive (`CM_Get_Class_Property_Keys` or
`CM_Get_DevNode_Property_Keys`) for one fixed object: sizing response plus the fetch
response for each possible allocated array length. -/
structure KeysSvc where
  sizing : KeysSizing
  fetch : Nat → KeysFetch

/-- `CMClass.propkeys`; the second component counts the service calls made (so that
"no second call" is an observable fact about the run).  A `CR_SUCCESS` sizing returns the
empty tuple after one call; a non-`CR_BUFFER_SMALL` sizing raises; otherwise the key array
of the reported count is fetched and `CR_SUCCESS` demanded. -/
def CMClass.propkeys (svc : KeysSvc) : Except PyErr (List DevicePropertyKey) × Nat :=
  let s := svc.sizing
  if s.cr = CR_SUCCESS then (.ok [], 1)
  else if s.cr ≠ CR_BUFFER_SMALL then (.error (.CMError s.cr), 1)
  else
    let f := svc.fetch s.count
    if f.cr ≠ CR_SUCCESS then (.error (.CMError f.cr), 2)
    else (.ok f.keys, 2)

/-- `CMDevice.propkeys`: unlike the class variant, the sizing call goes through
`CMError.throw_ifnot_buffersmall`, so any sizing disposition other than
`CR_BUFFER_SMALL` — including `CR_SUCCESS` — raises `CMError`. -/
def CMDevice.propkeys (svc : KeysSvc) : Except PyErr (List DevicePropertyKey) × Nat :=
  let s := svc.sizing
  if s.cr ≠ CR_BUFFER_SMALL then (.error (.CMError s.cr), 1)
  else
    let f := svc.fetch s.count
    if f.cr ≠ CR_SUCCESS then (.error (.CMError f.cr), 2)
    else (.ok f.keys, 2)

/-- Materialization of a generator of per-key fetches (`tuple(fetch(k) for k in keys)`):
keys are fetched left to right and the first raised error aborts the whole construction. -/
def mapStrict {β : Type} (f : DevicePropertyKey → Except PyErr β) :
    List DevicePropertyKey → Except PyErr (List β)
  | [] => .ok []
  | k :: ks =>
    match f k with
    | .error e => .error e
    | .ok p =>
      match mapStrict f ks with
      | .error e => .error e
      | .ok ps => .ok (p :: ps)

/-- `CMClass.props`: `tuple(self.get_prop(key) for key in self.propkeys)` — the key list,
then a strict `get_prop` per key.  `psvc k` is the property primitive for key `k`. -/
def CMClass.props (ksvc : KeysSvc) (psvc : DevicePropertyKey → PropSvc) :
    Except PyErr (List DeviceProperty) :=
  match (CMClass.propkeys ksvc).1 with
  | .error e => .error e
  | .ok keys => mapStrict (fun k => CMClass.get_prop (psvc k) k) keys

/-- `CMDevice.props`: `tuple(self.props_iter)` where `props_iter` pairs each key of
`propkeys` with a strict `get_prop` fetch. -/
def CMDevice.props (ksvc : KeysSvc) (psvc : DevicePropertyKey → PropSvc) :
    Except PyErr (List (DevicePropertyKey × DeviceProperty)) :=
  match (CMDevice.propkeys ksvc).1 with
  | .error e => .error e
  | .ok keys => mapStrict (fun k => (CMDevice.get_prop (psvc k) k).map (fun p => (k, p))) keys

/-- The iteration count of `for i in range(0xFFFFFFFF)`. -/
def RANGE32 : Nat := 0xFFFFFFFF

/-- The sentinel-terminated enumeration loop shared by `CMEnumerator.iter` and
`CMClass.iter`: `fuel` counts the remaining loop iterations and `i` is the current index;
`svc i` is the status of the indexed call and the buffer contents after it.  On
`CR_NO_SUCH_VALUE` the generator returns; on every other status it yields the buffer
contents and advances; exhausting the range raises `OverflowError`. -/
def sentinelEnumAux {α : Type} (svc : Nat → Nat × α) : Nat → Nat → Except PyErr (List α)
  | 0, _ => .error .OverflowError
  | fuel + 1, i =>
    let r := svc i
    if r.1 = CR_NO_SUCH_VALUE then .ok []
    else
      match sentinelEnumAux svc fuel (i + 1) with
      | .error e => .error e
      | .ok rest => .ok (r.2 :: rest)

/-- `CMEnumerator.iter`: enumerator names (UTF-16 code-unit strings) by index. -/
def CMEnumerator.iter (svc : Nat → Nat × List Nat) : Except PyErr (List (List Nat)) :=
  sentinelEnumAux svc RANGE32 0

/-- `CMClass.iter`: class GUIDs by index (each yielded class is identified by its GUID). -/
def CMClass.iter (svc : Nat → Nat × Guid) : Except PyErr (List Guid) :=
  sentinelEnumAux svc RANGE32 0

/-- Model of the device-id-list primitives for one fixed (filter, flags) pair:
`size` is the `CM_Get_Device_ID_List_SizeW` response (status, code-unit count written),
`fetch n` the `CM_Get_Device_ID_ListW` response with a buffer of `n` code units
(status, buffer contents after the call). -/
structure IdListSvc where
  size : Nat × Nat
  fetch : Nat → Nat × List Nat

/-- Python `str.split` on the null character: `n` separators produce `n + 1` segments, so
the empty string splits into one empty segment. -/
def pySplitNull : List Nat → List (List Nat)
  | [] => [[]]
  | c :: rest =>
    match pySplitNull rest with
    | [] => [[c]]
    | seg :: segs => if c = 0 then [] :: seg :: segs else (c :: seg) :: segs

/-- `CMDeviceID.__getdeviceidlist_worker`: size (demand `CR_SUCCESS`), allocate `len`
wide characters, fetch (demand `CR_SUCCESS`), then `bytes(buf)[:-4]` — the buffer minus
its last two code units — decoded and split on single nulls. -/
def CMDeviceID.getdeviceidlist_worker (svc : IdListSvc) : Except PyErr (List (List Nat)) :=
  let s := svc.size
  if s.1 ≠ CR_SUCCESS then .error (.CMError s.1)
  else
    let len := s.2
    let f := svc.fetch len
    if f.1 ≠ CR_SUCCESS then .error (.CMError f.1)
    else .ok (pySplitNull (f.2.take (len - 2)))

/-- UTF-16LE byte pairs decoded into code units (`lo + 256 * hi`). -/
def utf16leUnits : List Nat → List Nat
  | lo :: hi :: rest => (lo + 256 * hi) :: utf16leUnits rest
  | _ => []

/-- Modelled from the spec: the `DEVPROP_TYPE_STRING` tag of the `devprop` module (not
under `src/`); the tag indicating a UTF-16 string.  Only its identity matters here. -/
def DEVPROP_TYPE_STRING : Int := 18

/-- Modelled from the spec: `DeviceProperty.str_or_none` of the `devprop` module (not
under `src/`): if the type tag indicates a UTF-16 string, decode the buffer after
stripping exactly one trailing null code-unit pair (two bytes); any other tag is absent. -/
def DeviceProperty.str_or_none (p : DeviceProperty) : Option (List Nat) :=
  if p.ptype = DEVPROP_TYPE_STRING then
    some (utf16leUnits (p.bytes.take (p.bytes.length - 2)))
  else none

/-- Modelled from the spec: the `DeviceClassPropertyKeys.CLASS_NAME` key constant of the
`devprop` module (not under `src/`); an opaque fixed key. -/
def CLASS_NAME : DevicePropertyKey := ⟨3, 2⟩

/-- The service world seen by `CMSetupClass.find_by_classname`: the class-enumeration
primitive (status and GUID buffer contents per index) and, per class GUID, the property
primitive for the class-name key. -/
structure ClassScanSvc where
  enum : Nat → Nat × Guid
  nameProp : Guid → PropSvc

/-- `CMSetupClass.classname_or_none`: lenient fetch of the class-name property, then its
string view. -/
def CMSetupClass.classname_or_none (svc : ClassScanSvc) (g : Guid) : Option (List Nat) :=
  (CMClass.get_prop_or_none (svc.nameProp g) CLASS_NAME).bind DeviceProperty.str_or_none

/-- Python `str.lower` on the code units exercised here (the ASCII range). -/
def lowerU (s : List Nat) : List Nat :=
  s.map (fun c => if 65 ≤ c ∧ c ≤ 90 then c + 32 else c)

/-- The per-class test of `find_by_classname`: with `ignorecase` the lowercase folds must
agree; without it the name must be present and exactly equal (a `None` name never equals
the query string). -/
def CMSetupClass.nameMatches (svc : ClassScanSvc) (target : List Nat) (ignorecase : Bool)
    (g : Guid) : Bool :=
  match CMSetupClass.classname_or_none svc g with
  | none => false
  | some n => if ignorecase then lowerU n == lowerU target else n == target

/-- The scan of `find_by_classname` fused with the lazy `CMSetupClass.iter` generator it
consumes: at each index, stop with `none` on `CR_NO_SUCH_VALUE`, otherwise test the
yielded class and return it on a match, else continue; exhausting the index range raises
`OverflowError`. -/
def CMSetupClass.findAux (svc : ClassScanSvc) (target : List Nat) (ignorecase : Bool) :
    Nat → Nat → Except PyErr (Option Guid)
  | 0, _ => .error .OverflowError
  | fuel + 1, i =>
    let r := svc.enum i
    if r.1 = CR_NO_SUCH_VALUE then .ok none
    else if CMSetupClass.nameMatches svc target ignorecase r.2 then .ok (some r.2)
    else CMSetupClass.findAux svc target ignorecase fuel (i + 1)

/-- `CMSetupClass.find_by_classname`: the linear scan from index 0. -/
def CMSetupClass.find_by_classname (svc : ClassScanSvc) (target : List Nat)
    (ignorecase : Bool) : Except PyErr (Option Guid) :=
  CMSetupClass.findAux svc target ignorecase RANGE32 0

/-- One primitive service call issued during a class-name scan. -/
inductive SvcCall where
  | enumClasses (i : Nat)
  | propSizing (g : Guid)
  | propFetch (g : Guid) (size : Nat)
deriving DecidableEq

/-- The service calls issued by `classname_or_none` for one class: the sizing call always,
and the fetch call only when the sizing reported `CR_BUFFER_SMALL`. -/
def nameCalls (svc : ClassScanSvc) (g : Guid) : List SvcCall :=
  let s := (svc.nameProp g).sizing
  if s.cr ≠ CR_BUFFER_SMALL then [.propSizing g]
  else [.propSizing g, .propFetch g s.size]

/-- `findAux` instrumented with the trace of service calls it issues, in order. -/
def CMSetupClass.findAuxTraced (svc : ClassScanSvc) (target : List Nat) (ignorecase : Bool) :
    Nat → Nat → Except PyErr (Option Guid) × List SvcCall
  | 0, _ => (.error .OverflowError, [])
  | fuel + 1, i =>
    let r := svc.enum i
    if r.1 = CR_NO_SUCH_VALUE then (.ok none, [.enumClasses i])
    else
      let calls := .enumClasses i :: nameCalls svc r.2
      if CMSetupClass.nameMatches svc target ignorecase r.2 then (.ok (some r.2), calls)
      else
        let rest := CMSetupClass.findAuxTraced svc target ignorecase fuel (i + 1)
        (rest.1, calls ++ rest.2)

/-- One invocation of `find_by_classname` against the service world `w`: the result, the
trace of service calls issued, and the world the call leaves behind.  The source method
only issues the read primitives of `ClassScanSvc` and assigns no attribute, global or
cache, so the world it leaves is the world it received. -/
def CMSetupClass.find_invoke (w : ClassScanSvc) (target : List Nat) (ignorecase : Bool) :
    (Except PyErr (Option Guid) × List SvcCall) × ClassScanSvc :=
  (CMSetupClass.findAuxTraced w target ignorecase RANGE32 0, w)

deriving instance DecidableEq for Except

/-- Concrete key-list service reporting three keys. -/
def ksvcC1 : KeysSvc :=
  ⟨⟨CR_BUFFER_SMALL, 3⟩, fun _ => ⟨CR_SUCCESS, [⟨1, 1⟩, ⟨2, 2⟩, ⟨3, 3⟩]⟩⟩

/-- Per-key property service in which key (2, 2) sizes as BufferTooSmall but fails its
value call with status 55, while every other key succeeds. -/
def psvcC1 : DevicePropertyKey → PropSvc := fun k =>
  if k = ⟨2, 2⟩ then ⟨⟨CR_BUFFER_SMALL, 0, 4⟩, fun _ => ⟨55, 0, []⟩⟩
  else ⟨⟨CR_BUFFER_SMALL, 7, 1⟩, fun _ => ⟨CR_SUCCESS, 7, [9]⟩⟩

/-- Concrete key-list service reporting two keys, every fetch succeeding. -/
def ksvcC1w : KeysSvc :=
  ⟨⟨CR_BUFFER_SMALL, 2⟩, fun _ => ⟨CR_SUCCESS, [⟨1, 1⟩, ⟨3, 3⟩]⟩⟩

/-- Per-key property service in which every key succeeds. -/
def psvcC1w : DevicePropertyKey → PropSvc := fun _ =>
  ⟨⟨CR_BUFFER_SMALL, 7, 1⟩, fun _ => ⟨CR_SUCCESS, 7, [9]⟩⟩

/-- Enumerator-name service failing with status 55 at index 0 and ending at index 1. -/
def esvcC2 : Nat → Nat × List Nat := fun i =>
  if i = 0 then (55, [65]) else (CR_NO_SUCH_VALUE, [])

/-- Class-enumeration service failing with status 55 at index 0 and ending at index 1. -/
def csvcC2 : Nat → Nat × Guid := fun i =>
  if i = 0 then (55, 7) else (CR_NO_SUCH_VALUE, 0)

/-- Enumerator-name service that reports Success at every index, never NoMoreItems. -/
def esvcC4 : Nat → Nat × List Nat := fun _ => (CR_SUCCESS, [])

/-- Class-enumeration service that reports Success at every index, never NoMoreItems. -/
def csvcC4 : Nat → Nat × Guid := fun _ => (CR_SUCCESS, 0)

/-- Key-list service whose sizing call reports Success (an empty key set). -/
def ksvcC3 : KeysSvc := ⟨⟨CR_SUCCESS, 0⟩, fun _ => ⟨CR_SUCCESS, []⟩⟩

/-- Property service sizing to 3 bytes; the fetch echoes the allocated size in its last
byte, so the value retrieved witnesses the buffer length that was passed. -/
def psvcC5 : PropSvc := ⟨⟨CR_BUFFER_SMALL, 5, 3⟩, fun n => ⟨CR_SUCCESS, 5, [1, 2, n]⟩⟩

/-- Device-id-list service: five code units encoding two single-null-separated
identifiers "A" and "B" with a double-null terminator. -/
def svcC7 : IdListSvc := ⟨(CR_SUCCESS, 5), fun _ => (CR_SUCCESS, [65, 0, 66, 0, 0])⟩

/-- Device-id-list service: two code units, a bare double-null terminator. -/
def svcC10 : IdListSvc := ⟨(CR_SUCCESS, 2), fun _ => (CR_SUCCESS, [0, 0])⟩

/-- Class-scan world with a single class (GUID 7) named "Battery". -/
def svcC8 : ClassScanSvc :=
  ⟨fun i => if i = 0 then (CR_SUCCESS, 7) else (CR_NO_SUCH_VALUE, 0),
   fun _ => ⟨⟨CR_BUFFER_SMALL, DEVPROP_TYPE_STRING, 16⟩,
     fun _ => ⟨CR_SUCCESS, DEVPROP_TYPE_STRING,
       [66, 0, 97, 0, 116, 0, 116, 0, 101, 0, 114, 0, 121, 0, 0, 0]⟩⟩⟩

/-- The query string "BATTERY" as UTF-16 code units. -/
def queryBATTERY : List Nat := [66, 65, 84, 84, 69, 82, 89]

/-! Helper lemmas shared by the claim theorems. -/

/-- Unfolding one loop iteration of the sentinel enumeration. -/
theorem sentinelEnumAux_succ {α : Type} (svc : Nat → Nat × α) (fuel i : Nat) :
    sentinelEnumAux svc (fuel + 1) i =
      if (svc i).1 = CR_NO_SUCH_VALUE then .ok []
      else (sentinelEnumAux svc fuel (i + 1)).map (fun rest => (svc i).2 :: rest) := by
  by_cases h : (svc i).1 = CR_NO_SUCH_VALUE
  · simp [sentinelEnumAux, h]
  · cases hrec : sentinelEnumAux svc fuel (i + 1) <;>
      simp [sentinelEnumAux, h, hrec, Except.map]

/-- A loop that never sees `CR_NO_SUCH_VALUE` runs out of fuel and raises. -/
theorem sentinelEnumAux_overflow {α : Type} (svc : Nat → Nat × α) :
    ∀ fuel i, (∀ j, j < fuel → (svc (i + j)).1 ≠ CR_NO_SUCH_VALUE) →
      sentinelEnumAux svc fuel i = .error .OverflowError
  | 0, _, _ => rfl
  | fuel + 1, i, h => by
    have h0 : (svc i).1 ≠ CR_NO_SUCH_VALUE := by
      simpa using h 0 (Nat.succ_pos fuel)
    have ih := sentinelEnumAux_overflow svc fuel (i + 1) (fun j hj => by
      have hlt : j + 1 < fuel + 1 := Nat.succ_lt_succ hj
      have heq : i + (j + 1) = (i + 1) + j := by omega
      have := h (j + 1) hlt
      rwa [heq] at this)
    simp [sentinelEnumAux, h0, ih]

/-- If every key fetch succeeds, the strict map succeeds with the values in key order. -/
theorem mapStrict_ok {β : Type} (f : DevicePropertyKey → Except PyErr β)
    (g : DevicePropertyKey → β) :
    ∀ ks, (∀ k ∈ ks, f k = .ok (g k)) → mapStrict f ks = .ok (ks.map g)
  | [], _ => rfl
  | k :: ks, h => by
    have hk := h k (List.mem_cons_self k ks)
    have ih := mapStrict_ok f g ks (fun x hx => h x (List.mem_cons_of_mem k hx))
    simp [mapStrict, hk, ih]

/-- If the fetch of some listed key raises, the strict map raises. -/
theorem mapStrict_err {β : Type} (f : DevicePropertyKey → Except PyErr β) :
    ∀ ks k, k ∈ ks → (∃ e, f k = .error e) → ∃ e2, mapStrict f ks = .error e2
  | [], k, hmem, _ => absurd hmem (List.not_mem_nil k)
  | k0 :: ks, k, hmem, he => by
    rcases he with ⟨e, he⟩
    rcases List.mem_cons.mp hmem with rfl | hk
    · exact ⟨e, by simp [mapStrict, he]⟩
    · cases hf : f k0 with
      | error e0 => exact ⟨e0, by simp [mapStrict, hf]⟩
      | ok p =>
        rcases mapStrict_err f ks k hk ⟨e, he⟩ with ⟨e2, h2⟩
        exact ⟨e2, by simp [mapStrict, hf, h2]⟩

/-- When the eager class enumeration succeeds with `gs`, the fused scan returns the first
member of `gs` passing the name test. -/
theorem findAux_of_enum (svc : ClassScanSvc) (target : List Nat) (ic : Bool) :
    ∀ fuel i gs, sentinelEnumAux svc.enum fuel i = .ok gs →
      CMSetupClass.findAux svc target ic fuel i =
        .ok (gs.find? (CMSetupClass.nameMatches svc target ic))
  | 0, i, gs, h => by simp [sentinelEnumAux] at h
  | fuel + 1, i, gs, h => by
    by_cases h0 : (svc.enum i).1 = CR_NO_SUCH_VALUE
    · rw [sentinelEnumAux_succ, if_pos h0] at h
      cases h
      simp [CMSetupClass.findAux, h0]
    · rw [sentinelEnumAux_succ, if_neg h0] at h
      cases hrec : sentinelEnumAux svc.enum fuel (i + 1) with
      | error e => rw [hrec] at h; exact absurd h (by simp [Except.map])
      | ok rest =>
        rw [hrec] at h
        simp only [Except.map] at h
        cases h
        by_cases hm : CMSetupClass.nameMatches svc target ic (svc.enum i).2
        · simp [CMSetupClass.findAux, h0, hm, List.find?_cons_of_pos _ hm]
        · have ih := findAux_of_enum svc target ic fuel (i + 1) rest hrec
          simp [CMSetupClass.findAux, h0, hm, ih,
            List.find?_cons_of_neg _ (by simpa using hm)]

/-- The result component of the traced scan agrees with the untraced scan. -/
theorem findAuxTraced_fst (svc : ClassScanSvc) (target : List Nat) (ic : Bool) :
    ∀ fuel i, (CMSetupClass.findAuxTraced svc target ic fuel i).1 =
      CMSetupClass.findAux svc target ic fuel i
  | 0, _ => rfl
  | fuel + 1, i => by
    by_cases h0 : (svc.enum i).1 = CR_NO_SUCH_VALUE
    · simp [CMSetupClass.findAuxTraced, CMSetupClass.findAux, h0]
    · by_cases hm : CMSetupClass.nameMatches svc target ic (svc.enum i).2
      · simp [CMSetupClass.findAuxTraced, CMSetupClass.findAux, h0, hm]
      · simp [CMSetupClass.findAuxTraced, CMSetupClass.findAux, h0, hm,
          findAuxTraced_fst svc target ic fuel (i + 1)]

/-- Every run of the traced scan issues the index-`i` class-enumeration call first. -/
theorem findAuxTraced_trace_head (svc : ClassScanSvc) (target : List Nat) (ic : Bool)
    (fuel i : Nat) :
    ((CMSetupClass.findAuxTraced svc target ic (fuel + 1) i).2).head? =
      some (.enumClasses i) := by
  by_cases h0 : (svc.enum i).1 = CR_NO_SUCH_VALUE
  · simp [CMSetupClass.findAuxTraced, h0]
  · by_cases hm : CMSetupClass.nameMatches svc target ic (svc.enum i).2
    · simp [CMSetupClass.findAuxTraced, h0, hm]
    · simp [CMSetupClass.findAuxTraced, h0, hm]

/-! Claim theorems. -/

/-- Claim C1 (counterexample): the bulk class-property listing is not lenient.  With three
reported keys of which key (2, 2) fails its value call with status 55, `CMClass.props`
raises `CMError(55)` instead of returning the properties of the other two keys. -/
theorem class_props_not_lenient_cx :
    CMClass.props ksvcC1 psvcC1 = .error (.CMError 55) ∧
    CMClass.props ksvcC1 psvcC1 ≠
      .ok [⟨⟨1, 1⟩, 7, [9]⟩, ⟨⟨3, 3⟩, 7, [9]⟩] :=
  ⟨rfl, by decide⟩

/-- Claim C1 (amended): `CMClass.props` performs a strict fetch per key: when every
per-key fetch succeeds it returns the properties of all keys in original key order, and
when the fetch of any listed key raises, the whole listing raises a `CMError` and returns
no result. -/
theorem class_props_strict_per_key (ksvc : KeysSvc) (psvc : DevicePropertyKey → PropSvc)
    (keys : List DevicePropertyKey) (g : DevicePropertyKey → DeviceProperty)
    (hk : (CMClass.propkeys ksvc).1 = .ok keys) :
    ((∀ k ∈ keys, CMClass.get_prop (psvc k) k = .ok (g k)) →
       CMClass.props ksvc psvc = .ok (keys.map g)) ∧
    (∀ k ∈ keys, (∃ e, CMClass.get_prop (psvc k) k = .error e) →
       ∃ e2, CMClass.props ksvc psvc = .error e2) := by
  constructor
  · intro hall
    simp [CMClass.props, hk, mapStrict_ok _ g keys hall]
  · intro k hm he
    rcases mapStrict_err (fun k => CMClass.get_prop (psvc k) k) keys k hm he with ⟨e2, h2⟩
    exact ⟨e2, by simp [CMClass.props, hk, h2]⟩

/-- Claim C1 (witness): with two reported keys and every fetch succeeding, the listing
returns both properties in key order. -/
theorem class_props_strict_per_key_witness :
    (CMClass.propkeys ksvcC1w).1 = .ok [⟨1, 1⟩, ⟨3, 3⟩] ∧
    CMClass.props ksvcC1w psvcC1w = .ok [⟨⟨1, 1⟩, 7, [9]⟩, ⟨⟨3, 3⟩, 7, [9]⟩] := by
  refine ⟨rfl, ?_⟩
  have h := (class_props_strict_per_key ksvcC1w psvcC1w [⟨1, 1⟩, ⟨3, 3⟩]
    (fun k => ⟨k, 7, [9]⟩) rfl).1 (by decide)
  simpa using h

/-- Claim C2 (counterexample): on a disposition that is neither Success nor NoMoreItems
(status 55 at index 0), both sentinel enumerations yield the buffer contents as an item
and continue; neither terminates with a `CMError`. -/
theorem sentinel_enum_yields_on_failure_cx :
    ((55 : Nat) ≠ CR_SUCCESS ∧ (55 : Nat) ≠ CR_NO_SUCH_VALUE) ∧
    CMEnumerator.iter esvcC2 = .ok [[65]] ∧
    CMClass.iter csvcC2 = .ok [7] ∧
    (∀ e : PyErr, CMEnumerator.iter esvcC2 ≠ .error e) ∧
    (∀ e : PyErr, CMClass.iter csvcC2 ≠ .error e) := by
  refine ⟨by decide, rfl, rfl, ?_, ?_⟩
  · intro e h
    rw [show CMEnumerator.iter esvcC2 = .ok [[65]] from rfl] at h
    exact nomatch h
  · intro e h
    rw [show CMClass.iter csvcC2 = .ok [7] from rfl] at h
    exact nomatch h

/-- Claim C2 (amended): at each index a `CR_NO_SUCH_VALUE` disposition ends the sequence
normally, and every other disposition — Success or failure alike — yields the buffer
contents as an item and advances the index; no disposition raises a `CMError`. -/
theorem sentinel_enum_step (esvc : Nat → Nat × List Nat) (csvc : Nat → Nat × Guid) :
    ((esvc 0).1 = CR_NO_SUCH_VALUE → CMEnumerator.iter esvc = .ok []) ∧
    ((esvc 0).1 ≠ CR_NO_SUCH_VALUE →
       CMEnumerator.iter esvc =
         (sentinelEnumAux esvc 0xFFFFFFFE 1).map (fun rest => (esvc 0).2 :: rest)) ∧
    ((csvc 0).1 = CR_NO_SUCH_VALUE → CMClass.iter csvc = .ok []) ∧
    ((csvc 0).1 ≠ CR_NO_SUCH_VALUE →
       CMClass.iter csvc =
         (sentinelEnumAux csvc 0xFFFFFFFE 1).map (fun rest => (csvc 0).2 :: rest)) := by
  have hr : RANGE32 = 0xFFFFFFFE + 1 := by norm_num [RANGE32]
  refine ⟨fun h => ?_, fun h => ?_, fun h => ?_, fun h => ?_⟩
  · show sentinelEnumAux esvc RANGE32 0 = _
    rw [hr, sentinelEnumAux_succ]; simp [h]
  · show sentinelEnumAux esvc RANGE32 0 = _
    rw [hr, sentinelEnumAux_succ]; simp [h]
  · show sentinelEnumAux csvc RANGE32 0 = _
    rw [hr, sentinelEnumAux_succ]; simp [h]
  · show sentinelEnumAux csvc RANGE32 0 = _
    rw [hr, sentinelEnumAux_succ]; simp [h]

/-- Claim C2 (amended, witness): a service ending immediately gives the empty sequence,
and one whose index-0 call reports failure status 55 still yields that item. -/
theorem sentinel_enum_step_witness :
    (esvcC2 0).1 ≠ CR_NO_SUCH_VALUE ∧
    CMEnumerator.iter esvcC2 =
      (sentinelEnumAux esvcC2 0xFFFFFFFE 1).map (fun rest => (esvcC2 0).2 :: rest) := by
  refine ⟨by decide, ?_⟩
  exact (sentinel_enum_step esvcC2 csvcC2).2.1 (by decide)

/-- Claim C3 (counterexample): a device key-list sizing call that reports Success makes
`CMDevice.propkeys` raise `CMError(CR_SUCCESS)` after one call instead of returning an
empty key list. -/
theorem device_propkeys_success_raises_cx :
    CMDevice.propkeys ksvcC3 = (.error (.CMError CR_SUCCESS), 1) ∧
    (CMDevice.propkeys ksvcC3).1 ≠ .ok [] :=
  ⟨rfl, by decide⟩

/-- Claim C3 (amended): when the sizing call reports Success, `CMClass.propkeys` returns
an empty key list after a single service call, while `CMDevice.propkeys` instead raises a
`CMError` carrying the Success status after a single service call (it accepts only
BufferTooSmall from its sizing call). -/
theorem propkeys_success_sizing (csvc dsvc : KeysSvc)
    (hc : csvc.sizing.cr = CR_SUCCESS) (hd : dsvc.sizing.cr = CR_SUCCESS) :
    CMClass.propkeys csvc = (.ok [], 1) ∧
    CMDevice.propkeys dsvc = (.error (.CMError CR_SUCCESS), 1) := by
  constructor
  · simp [CMClass.propkeys, hc]
  · simp [CMDevice.propkeys, hd, CR_SUCCESS, CR_BUFFER_SMALL]

/-- Claim C3 (witness): the concrete Success-sizing service. -/
theorem propkeys_success_sizing_witness :
    ksvcC3.sizing.cr = CR_SUCCESS ∧
    CMClass.propkeys ksvcC3 = (.ok [], 1) ∧
    CMDevice.propkeys ksvcC3 = (.error (.CMError CR_SUCCESS), 1) := by
  refine ⟨rfl, ?_, ?_⟩
  · exact (propkeys_success_sizing ksvcC3 ksvcC3 rfl rfl).1
  · exact (propkeys_success_sizing ksvcC3 ksvcC3 rfl rfl).2

/-- Claim C4: if the service never reports `CR_NO_SUCH_VALUE` at any queried index of the
32-bit range, both sentinel enumerations terminate by raising `OverflowError`, a signal
distinct from a normal end of data (an `ok` result) and from every `CMError`. -/
theorem sentinel_enum_overflow_guard (esvc : Nat → Nat × List Nat) (csvc : Nat → Nat × Guid)
    (he : ∀ j, j < RANGE32 → (esvc j).1 ≠ CR_NO_SUCH_VALUE)
    (hc : ∀ j, j < RANGE32 → (csvc j).1 ≠ CR_NO_SUCH_VALUE) :
    CMEnumerator.iter esvc = .error .OverflowError ∧
    CMClass.iter csvc = .error .OverflowError ∧
    (∀ cr : Nat, PyErr.OverflowError ≠ PyErr.CMError cr) ∧
    (∀ xs : List (List Nat),
       (Except.error PyErr.OverflowError : Except PyErr (List (List Nat))) ≠ .ok xs) := by
  refine ⟨?_, ?_, ?_, ?_⟩
  · exact sentinelEnumAux_overflow esvc RANGE32 0 (fun j hj => by
      simpa using he j hj)
  · exact sentinelEnumAux_overflow csvc RANGE32 0 (fun j hj => by
      simpa using hc j hj)
  · intro cr h
    exact PyErr.noConfusion h
  · intro xs h
    exact Except.noConfusion h

/-- Claim C4 (witness): services reporting Success at every index overflow. -/
theorem sentinel_enum_overflow_guard_witness :
    (∀ j, j < RANGE32 → (esvcC4 j).1 ≠ CR_NO_SUCH_VALUE) ∧
    CMEnumerator.iter esvcC4 = .error .OverflowError ∧
    CMClass.iter csvcC4 = .error .OverflowError := by
  have he : ∀ j, j < RANGE32 → (esvcC4 j).1 ≠ CR_NO_SUCH_VALUE := by
    intro j hj h
    simp [esvcC4, CR_SUCCESS, CR_NO_SUCH_VALUE] at h
  have hc : ∀ j, j < RANGE32 → (csvcC4 j).1 ≠ CR_NO_SUCH_VALUE := by
    intro j hj h
    simp [csvcC4, CR_SUCCESS, CR_NO_SUCH_VALUE] at h
  have h := sentinel_enum_overflow_guard esvcC4 csvcC4 he hc
  exact ⟨he, h.1, h.2.1⟩

/-- Claim C5: in both strict single-property retrievals, a `CR_BUFFER_SMALL` sizing with
reported size S leads to a second call with a buffer of exactly S bytes (the fetch below
is applied at the sizing's reported size); a sizing with any other disposition raises a
`CMError` carrying that status, and a second call with any disposition other than
`CR_SUCCESS` raises a `CMError` carrying that status; in both failure cases no value is
returned. -/
theorem get_prop_two_phase (csvc dsvc : PropSvc) (ck dk : DevicePropertyKey) :
    ((csvc.sizing.cr ≠ CR_BUFFER_SMALL →
        CMClass.get_prop csvc ck = .error (.CMError csvc.sizing.cr)) ∧
     (csvc.sizing.cr = CR_BUFFER_SMALL →
        (csvc.fetch csvc.sizing.size).cr = CR_SUCCESS →
        CMClass.get_prop csvc ck =
          .ok ⟨ck, (csvc.fetch csvc.sizing.size).ptype, (csvc.fetch csvc.sizing.size).buf⟩) ∧
     (csvc.sizing.cr = CR_BUFFER_SMALL →
        (csvc.fetch csvc.sizing.size).cr ≠ CR_SUCCESS →
        CMClass.get_prop csvc ck = .error (.CMError (csvc.fetch csvc.sizing.size).cr))) ∧
    ((dsvc.sizing.cr ≠ CR_BUFFER_SMALL →
        CMDevice.get_prop dsvc dk = .error (.CMError dsvc.sizing.cr)) ∧
     (dsvc.sizing.cr = CR_BUFFER_SMALL →
        (dsvc.fetch dsvc.sizing.size).cr = CR_SUCCESS →
        CMDevice.get_prop dsvc dk =
          .ok ⟨dk, (dsvc.fetch dsvc.sizing.size).ptype, (dsvc.fetch dsvc.sizing.size).buf⟩) ∧
     (dsvc.sizing.cr = CR_BUFFER_SMALL →
        (dsvc.fetch dsvc.sizing.size).cr ≠ CR_SUCCESS →
        CMDevice.get_prop dsvc dk = .error (.CMError (dsvc.fetch dsvc.sizing.size).cr))) := by
  refine ⟨⟨fun h => ?_, fun h1 h2 => ?_, fun h1 h2 => ?_⟩,
          ⟨fun h => ?_, fun h1 h2 => ?_, fun h1 h2 => ?_⟩⟩
  · simp [CMClass.get_prop, h]
  · simp [CMClass.get_prop, h1, h2]
  · simp [CMClass.get_prop, h1, h2]
  · simp [CMDevice.get_prop, h]
  · simp [CMDevice.get_prop, h1, h2]
  · simp [CMDevice.get_prop, h1, h2]

/-- Claim C5 (witness): a sizing of 3 bytes leads to a fetch whose buffer length echo is
3, and the retrieved property carries exactly that fetch's type tag and bytes. -/
theorem get_prop_two_phase_witness :
    psvcC5.sizing.cr = CR_BUFFER_SMALL ∧
    (psvcC5.fetch psvcC5.sizing.size).cr = CR_SUCCESS ∧
    CMClass.get_prop psvcC5 ⟨9, 9⟩ = .ok ⟨⟨9, 9⟩, 5, [1, 2, 3]⟩ ∧
    CMDevice.get_prop psvcC5 ⟨9, 9⟩ = .ok ⟨⟨9, 9⟩, 5, [1, 2, 3]⟩ := by
  have h := get_prop_two_phase psvcC5 psvcC5 ⟨9, 9⟩ ⟨9, 9⟩
  exact ⟨rfl, rfl, h.1.2.1 rfl rfl, h.2.2.1 rfl rfl⟩

/-- Claim C6: the bulk device-property listing is strict: when every per-key fetch
succeeds it pairs each key with its property in original key order, and when the strict
fetch of any listed key raises, the whole listing raises a `CMError` and produces no
partial result. -/
theorem device_props_strict (ksvc : KeysSvc) (psvc : DevicePropertyKey → PropSvc)
    (keys : List DevicePropertyKey) (g : DevicePropertyKey → DeviceProperty)
    (hk : (CMDevice.propkeys ksvc).1 = .ok keys) :
    ((∀ k ∈ keys, CMDevice.get_prop (psvc k) k = .ok (g k)) →
       CMDevice.props ksvc psvc = .ok (keys.map (fun k => (k, g k)))) ∧
    (∀ k ∈ keys, (∃ e, CMDevice.get_prop (psvc k) k = .error e) →
       ∃ e2, CMDevice.props ksvc psvc = .error e2) := by
  constructor
  · intro hall
    have hmap := mapStrict_ok (fun k => (CMDevice.get_prop (psvc k) k).map (fun p => (k, p)))
      (fun k => (k, g k)) keys (fun k hm => by simp [hall k hm, Except.map])
    simp [CMDevice.props, hk, hmap]
  · intro k hm he
    rcases he with ⟨e, he⟩
    rcases mapStrict_err (fun k => (CMDevice.get_prop (psvc k) k).map (fun p => (k, p)))
      keys k hm ⟨e, by simp [he, Except.map]⟩ with ⟨e2, h2⟩
    exact ⟨e2, by simp [CMDevice.props, hk, h2]⟩

/-- Claim C6 (witness): two keys, both succeeding, are paired with their properties in
key order; the same key list with a failing key (2, 2) raises. -/
theorem device_props_strict_witness :
    (CMDevice.propkeys ksvcC1w).1 = .ok [⟨1, 1⟩, ⟨3, 3⟩] ∧
    CMDevice.props ksvcC1w psvcC1w =
      .ok [(⟨1, 1⟩, ⟨⟨1, 1⟩, 7, [9]⟩), (⟨3, 3⟩, ⟨⟨3, 3⟩, 7, [9]⟩)] ∧
    (∃ e2, CMDevice.props ksvcC1 psvcC1 = .error e2) := by
  refine ⟨rfl, ?_, ?_⟩
  · have h := (device_props_strict ksvcC1w psvcC1w [⟨1, 1⟩, ⟨3, 3⟩]
      (fun k => ⟨k, 7, [9]⟩) rfl).1 (by decide)
    simpa using h
  · exact (device_props_strict ksvcC1 psvcC1 [⟨1, 1⟩, ⟨2, 2⟩, ⟨3, 3⟩]
      (fun k => ⟨k, 7, [9]⟩) rfl).2 ⟨2, 2⟩ (by decide) ⟨.CMError 55, by decide⟩

/-- Claim C7: a raw UTF-16 buffer encoding "A\0B\0\0" (five code units, the size reported
by the sizing call) splits into exactly the identifiers "A" and "B", in buffer order,
with no empty entries. -/
theorem deviceidlist_split_two_ids :
    CMDeviceID.getdeviceidlist_worker svcC7 = .ok [[65], [66]] ∧
    ∀ s ∈ [[65], [66]], s ≠ ([] : List Nat) :=
  ⟨rfl, by decide⟩

/-- Claim C8: when the class enumeration terminates normally with classes `gs`,
`find_by_classname` returns the first member of `gs` whose name matches — under lowercase
folding when `ignorecase` is set, under exact equality (with an absent name never
matching) otherwise — and returns an absent result rather than raising when no class
matches. -/
theorem find_by_classname_first_match (svc : ClassScanSvc) (target : List Nat)
    (gs : List Guid) (hgs : sentinelEnumAux svc.enum RANGE32 0 = .ok gs) :
    (∀ ic : Bool, CMSetupClass.find_by_classname svc target ic =
       .ok (gs.find? (CMSetupClass.nameMatches svc target ic))) ∧
    (∀ ic : Bool, (∀ g ∈ gs, CMSetupClass.nameMatches svc target ic g = false) →
       CMSetupClass.find_by_classname svc target ic = .ok none) := by
  constructor
  · intro ic
    exact findAux_of_enum svc target ic RANGE32 0 gs hgs
  · intro ic hnone
    have h := findAux_of_enum svc target ic RANGE32 0 gs hgs
    show CMSetupClass.findAux svc target ic RANGE32 0 = .ok none
    rw [h, List.find?_eq_none.mpr (fun g hg => by simp [hnone g hg])]

/-- Claim C8 (witness): against a world with one class named "Battery", the query
"BATTERY" matches with `ignorecase` and finds nothing without it. -/
theorem find_by_classname_first_match_witness :
    sentinelEnumAux svcC8.enum RANGE32 0 = .ok [7] ∧
    CMSetupClass.find_by_classname svcC8 queryBATTERY true = .ok (some 7) ∧
    CMSetupClass.find_by_classname svcC8 queryBATTERY false = .ok none := by
  have h := (find_by_classname_first_match svcC8 queryBATTERY [7] rfl).1
  refine ⟨rfl, ?_, ?_⟩
  · rw [h true]
    rfl
  · rw [h false]
    rfl

/-- Claim C9: a second invocation of `find_by_classname` with the same arguments against
the world left by a first invocation returns the same result and issues the same service
calls; an invocation leaves the service world unchanged (the method only issues the read
primitives of the service and writes no shared state); every invocation starts by
re-enumerating classes from index 0 (no caching); and the instrumented invocation agrees
with the plain scan. -/
theorem find_by_classname_idempotent (w : ClassScanSvc) (target : List Nat) (ic : Bool) :
    (CMSetupClass.find_invoke (CMSetupClass.find_invoke w target ic).2 target ic).1 =
      (CMSetupClass.find_invoke w target ic).1 ∧
    (CMSetupClass.find_invoke w target ic).2 = w ∧
    ((CMSetupClass.find_invoke w target ic).1.2).head? = some (.enumClasses 0) ∧
    (CMSetupClass.find_invoke w target ic).1.1 =
      CMSetupClass.find_by_classname w target ic := by
  have hr : RANGE32 = 0xFFFFFFFE + 1 := by norm_num [RANGE32]
  refine ⟨rfl, rfl, ?_, ?_⟩
  · show ((CMSetupClass.findAuxTraced w target ic RANGE32 0).2).head? = _
    rw [hr]
    exact findAuxTraced_trace_head w target ic 0xFFFFFFFE 0
  · show (CMSetupClass.findAuxTraced w target ic RANGE32 0).1 = _
    exact findAuxTraced_fst w target ic RANGE32 0

/-- Claim C10: a reported device-id-list size of exactly 2 code units (a bare double-null
terminator) makes the worker yield one empty-string identifier, not an empty sequence:
only the final two code units are discarded and the empty remainder splits into one empty
segment. -/
theorem deviceidlist_bare_terminator_yields_empty_id :
    CMDeviceID.getdeviceidlist_worker svcC10 = .ok [[]] ∧
    (Except.ok [[]] : Except PyErr (List (List Nat))) ≠ .ok [] :=
  ⟨rfl, by decide⟩
